import Mathlib

/-!
Shallow embedding of the message-format core: the `PluralFormat` and
`SelectFormat` message parts (src/src/icu/ast/plural_format.rs and
src/src/icu/ast/select_format.rs) together with the surrounding data model
(`Value`, `Args`, `Context`, `Message`, `MessagePart`, `PluralCategory`,
`english_cardinal_classifier`) which the two files consume from the crate
root; those surrounding pieces are modelled from the spec, as marked on
each definition.

Rust's `fmt::Result` is modelled as a `Bool` success flag paired with the
output sink contents (a `String` threaded through rendering); the mutual
recursion of `Message::write_message` and `MessagePart::apply_format` is
made structural with a fuel parameter, `none` meaning the fuel ran out (a
model artifact only: any fuel at least the nesting depth suffices).
-/

namespace MF

/-- Modelled from the spec: `Value` (§3), the closed variant over runtime
data a template can reference, `{ Number(integer), Str(text) }`; it lives
in the crate root, not under src/. -/
inductive Value : Type where
  | Number : Int → Value
  | Str : String → Value
deriving DecidableEq

/-- Modelled from the spec: a named argument (§3, §4.1) carrying a `Value`;
`Arg.value()` reads the value. It lives in the crate root, not under src/. -/
structure Arg where
  name : String
  value : Value
deriving DecidableEq

/-- Modelled from the spec: `Args` (§3, §4.1), a read-only mapping from
variable name (unique keys) to a named argument. It lives in the crate
root, not under src/. -/
def Args : Type := List Arg

/-- Modelled from the spec: `Args.get(name) -> Option<Arg>` (§4.1), lookup
by variable name. -/
def Args.get (args : Args) (name : String) : Option Arg :=
  List.find? (fun a => a.name == name) args

/-- Modelled from the spec: `Context` (§3), a record with one optional
field `placeholder_value`, set by a `PluralFormat` before rendering its
chosen sub-message. It lives in the crate root, not under src/. -/
structure Context where
  placeholder_value : Option Int := none
deriving DecidableEq

/-- `PluralCategory` as used by plural_format.rs: the six grammatical
categories (declared in the crate root; the set of six is fixed by the
spec §6 classifier boundary). -/
inductive PluralCategory : Type where
  | Zero
  | One
  | Two
  | Few
  | Many
  | Other
deriving DecidableEq

/-- Modelled from the spec: `english_cardinal_classifier` (§4.2), the
default built-in cardinal classifier — "exactly one maps to One,
everything else to Other". It lives in the crate root, not under src/. -/
def english_cardinal_classifier (n : Int) : PluralCategory :=
  if n = 1 then PluralCategory.One else PluralCategory.Other

mutual

/-- Modelled from the spec: `Message` (§3), an ordered sequence of
`MessagePart`s; it lives in the crate root, not under src/. -/
inductive Message : Type where
  | mk : List MessagePart → Message

/-- Modelled from the spec: `MessagePart` (§2, §4.4) — literal plain text,
a placeholder reference to "the matched number" ("#", spec §3), a
`PluralFormat`, or a `SelectFormat`. Only the latter two are under src/. -/
inductive MessagePart : Type where
  | plain : String → MessagePart
  | placeholder : MessagePart
  | plural : PluralFormat → MessagePart
  | select : SelectFormat → MessagePart

/-- `PluralFormat` (plural_format.rs lines 14-27): variable name,
classifier function, literal-override map, offset, optional messages for
five categories, mandatory `other`. The `HashMap<i64, Message>` is
modelled as an association list whose insert prepends (lookup finds the
most recent insert, matching `HashMap` overwrite semantics). -/
inductive PluralFormat : Type where
  | mk : String → (Int → PluralCategory) → List (Int × Message) → Int →
      Option Message → Option Message → Option Message → Option Message →
      Option Message → Message → PluralFormat

/-- `SelectFormat` (select_format.rs lines 13-22): variable name, exact
string mappings, mandatory default. -/
inductive SelectFormat : Type where
  | mk : String → List (String × Message) → Message → SelectFormat

end

/-- The parts of a `Message`. -/
def Message.parts : Message → List MessagePart
  | Message.mk ps => ps

/-- Field `variable_name` of `PluralFormat`. -/
def PluralFormat.variable_name : PluralFormat → String
  | PluralFormat.mk n _ _ _ _ _ _ _ _ _ => n

/-- Field `classifier` of `PluralFormat`. -/
def PluralFormat.classifier : PluralFormat → (Int → PluralCategory)
  | PluralFormat.mk _ c _ _ _ _ _ _ _ _ => c

/-- Field `literals` of `PluralFormat`. -/
def PluralFormat.literals : PluralFormat → List (Int × Message)
  | PluralFormat.mk _ _ l _ _ _ _ _ _ _ => l

/-- Field `offset` of `PluralFormat`. -/
def PluralFormat.offset : PluralFormat → Int
  | PluralFormat.mk _ _ _ o _ _ _ _ _ _ => o

/-- Field `zero` of `PluralFormat`. -/
def PluralFormat.zero : PluralFormat → Option Message
  | PluralFormat.mk _ _ _ _ z _ _ _ _ _ => z

/-- Field `one` of `PluralFormat`. -/
def PluralFormat.one : PluralFormat → Option Message
  | PluralFormat.mk _ _ _ _ _ o _ _ _ _ => o

/-- Field `two` of `PluralFormat`. -/
def PluralFormat.two : PluralFormat → Option Message
  | PluralFormat.mk _ _ _ _ _ _ t _ _ _ => t

/-- Field `few` of `PluralFormat`. -/
def PluralFormat.few : PluralFormat → Option Message
  | PluralFormat.mk _ _ _ _ _ _ _ f _ _ => f

/-- Field `many` of `PluralFormat`. -/
def PluralFormat.many : PluralFormat → Option Message
  | PluralFormat.mk _ _ _ _ _ _ _ _ m _ => m

/-- Field `other` of `PluralFormat`. -/
def PluralFormat.other : PluralFormat → Message
  | PluralFormat.mk _ _ _ _ _ _ _ _ _ ot => ot

/-- Field `variable_name` of `SelectFormat`. -/
def SelectFormat.variable_name : SelectFormat → String
  | SelectFormat.mk n _ _ => n

/-- Field `mappings` of `SelectFormat`. -/
def SelectFormat.mappings : SelectFormat → List (String × Message)
  | SelectFormat.mk _ m _ => m

/-- Field `default` of `SelectFormat`. -/
def SelectFormat.default : SelectFormat → Message
  | SelectFormat.mk _ _ d => d

/-- `HashMap::get` over the association-list model of
`HashMap<i64, Message>`: the first (most recently inserted) binding. -/
def lookupLiteral (k : Int) : List (Int × Message) → Option Message
  | [] => none
  | (k2, m) :: rest => if k = k2 then some m else lookupLiteral k rest

/-- `HashMap::get` over the association-list model of
`HashMap<String, Message>`: the first (most recently inserted) binding. -/
def lookupMapping (k : String) : List (String × Message) → Option Message
  | [] => none
  | (k2, m) :: rest => if k = k2 then some m else lookupMapping k rest

/-- `PluralFormat::new` (plural_format.rs lines 31-44). -/
def PluralFormat.new (variable_name : String) (other : Message) : PluralFormat :=
  PluralFormat.mk variable_name english_cardinal_classifier [] 0
    none none none none none other

/-- `PluralFormat::literal` (plural_format.rs lines 47-49):
`self.literals.insert(literal, message)`. -/
def PluralFormat.literal : PluralFormat → Int → Message → PluralFormat
  | PluralFormat.mk n c lits off z o t fw m ot, l, msg =>
      PluralFormat.mk n c ((l, msg) :: lits) off z o t fw m ot

/-- `PluralFormat::offset` setter (plural_format.rs lines 52-54). -/
def PluralFormat.set_offset : PluralFormat → Int → PluralFormat
  | PluralFormat.mk n c lits _ z o t fw m ot, off =>
      PluralFormat.mk n c lits off z o t fw m ot

/-- `PluralFormat::zero` setter (plural_format.rs lines 57-59). -/
def PluralFormat.set_zero : PluralFormat → Message → PluralFormat
  | PluralFormat.mk n c lits off _ o t fw m ot, msg =>
      PluralFormat.mk n c lits off (some msg) o t fw m ot

/-- `PluralFormat::one` setter (plural_format.rs lines 62-64). -/
def PluralFormat.set_one : PluralFormat → Message → PluralFormat
  | PluralFormat.mk n c lits off z _ t fw m ot, msg =>
      PluralFormat.mk n c lits off z (some msg) t fw m ot

/-- `PluralFormat::two` setter (plural_format.rs lines 67-69). -/
def PluralFormat.set_two : PluralFormat → Message → PluralFormat
  | PluralFormat.mk n c lits off z o _ fw m ot, msg =>
      PluralFormat.mk n c lits off z o (some msg) fw m ot

/-- `PluralFormat::few` setter (plural_format.rs lines 72-74). -/
def PluralFormat.set_few : PluralFormat → Message → PluralFormat
  | PluralFormat.mk n c lits off z o t _ m ot, msg =>
      PluralFormat.mk n c lits off z o t (some msg) m ot

/-- `PluralFormat::many` setter (plural_format.rs lines 77-79). -/
def PluralFormat.set_many : PluralFormat → Message → PluralFormat
  | PluralFormat.mk n c lits off z o t fw _ ot, msg =>
      PluralFormat.mk n c lits off z o t fw (some msg) ot

/-- `PluralFormat::lookup_message` (plural_format.rs lines 82-96): literal
override first, else classify and fall back to `other` for unset
categories. -/
def PluralFormat.lookup_message (f : PluralFormat) (offset_value : Int) : Message :=
  match lookupLiteral offset_value f.literals with
  | some literal => literal
  | none =>
      match f.classifier offset_value with
      | PluralCategory.Zero => Option.getD f.zero f.other
      | PluralCategory.One => Option.getD f.one f.other
      | PluralCategory.Two => Option.getD f.two f.other
      | PluralCategory.Few => Option.getD f.few f.other
      | PluralCategory.Many => Option.getD f.many f.other
      | PluralCategory.Other => f.other

/-- `SelectFormat::new` (select_format.rs lines 26-32). -/
def SelectFormat.new (variable_name : String) (dflt : Message) : SelectFormat :=
  SelectFormat.mk variable_name [] dflt

/-- `SelectFormat::map` (select_format.rs lines 35-37):
`self.mappings.insert(value, message)`. -/
def SelectFormat.map : SelectFormat → String → Message → SelectFormat
  | SelectFormat.mk n maps d, k, msg => SelectFormat.mk n ((k, msg) :: maps) d

/-- `SelectFormat::lookup_message` (select_format.rs lines 40-42):
`self.mappings.get(value).unwrap_or(&self.default)`. -/
def SelectFormat.lookup_message (f : SelectFormat) (value : String) : Message :=
  Option.getD (lookupMapping value f.mappings) f.default

/-- One rendering step for a `MessagePart`, parameterized by the renderer
used for sub-messages. The sink is the threaded `String`; the `Bool` is
the `fmt::Result` (`false` is `Err(fmt::Error)`), and the outer `none`
only signals exhausted fuel in the sub-renderer.

The `plural` arm is `PluralFormat::apply_format` (plural_format.rs
lines 100-115): resolve the argument, require `Value::Number`, subtract
the offset, look up the message, and render it under a derived `Context`
whose `placeholder_value` is the offset-adjusted value. The `select` arm
is `SelectFormat::apply_format` (select_format.rs lines 46-59): resolve
the argument, require `Value::Str`, and render the looked-up message
under the unchanged `Context`. The `plain` and `placeholder` arms are
modelled from the spec (plain text is appended; "#" writes the context's
placeholder value, failing when it is unset). -/
def applyFormatStep
    (renderMsg : Message → Context → String → Option Args → Option (String × Bool)) :
    MessagePart → Context → String → Option Args → Option (String × Bool)
  | MessagePart.plain s, _, out, _ => some (out ++ s, true)
  | MessagePart.placeholder, ctx, out, _ =>
      match ctx.placeholder_value with
      | some n => some (out ++ toString n, true)
      | none => some (out, false)
  | MessagePart.plural f, ctx, out, args =>
      match Option.map Arg.value
          (Option.bind args (fun a => Args.get a f.variable_name)) with
      | some (Value.Number value) =>
          let offset_value := value - f.offset
          renderMsg (f.lookup_message offset_value)
            { ctx with placeholder_value := some offset_value } out args
      | _ => some (out, false)
  | MessagePart.select f, ctx, out, args =>
      match Option.map Arg.value
          (Option.bind args (fun a => Args.get a f.variable_name)) with
      | some (Value.Str value) =>
          renderMsg (f.lookup_message value) ctx out args
      | _ => some (out, false)

/-- Modelled from the spec: the part-iteration loop of
`Message::write_message` (§4.4) — render each part in order into the same
sink, short-circuiting on the first error, bytes already written
remaining in the sink. -/
def writePartsStep
    (renderPart : MessagePart → Context → String → Option Args → Option (String × Bool)) :
    List MessagePart → Context → String → Option Args → Option (String × Bool)
  | [], _, out, _ => some (out, true)
  | p :: ps, ctx, out, args =>
      match renderPart p ctx out args with
      | some (out2, true) => writePartsStep renderPart ps ctx out2 args
      | some (out2, false) => some (out2, false)
      | none => none

/-- Modelled from the spec: `Message::write_message` (§4.4), fuel-indexed.
Entering a message consumes one unit of fuel; `none` means the fuel ran
out (never happens when the fuel exceeds the nesting depth). -/
def Message.write_message :
    Nat → Message → Context → String → Option Args → Option (String × Bool)
  | 0, _, _, _, _ => none
  | Nat.succ fuel, Message.mk parts, ctx, out, args =>
      writePartsStep (applyFormatStep (Message.write_message fuel)) parts ctx out args

/-- `MessagePart::apply_format` at a given fuel: the dispatch used by the
part-iteration loop, rendering sub-messages with `Message.write_message`
at the same fuel. -/
def MessagePart.apply_format (fuel : Nat) (p : MessagePart) (ctx : Context)
    (out : String) (args : Option Args) : Option (String × Bool) :=
  applyFormatStep (Message.write_message fuel) p ctx out args

/-! Concrete fixtures mirroring the unit tests (`tests::it_works` in both
files) and the spec's concrete scenarios (§8). -/

/-- The message produced by `parse("Other")`: one plain-text part. -/
def msgOther : Message := Message.mk [MessagePart.plain "Other"]

/-- The message produced by `parse("One")`. -/
def msgOne : Message := Message.mk [MessagePart.plain "One"]

/-- The message produced by `parse("Default")`. -/
def msgDefault : Message := Message.mk [MessagePart.plain "Default"]

/-- The message produced by `parse("Block")`. -/
def msgBlock : Message := Message.mk [MessagePart.plain "Block"]

/-- A literal-override message, distinct from `msgOther` and `msgOne`. -/
def msgLit : Message := Message.mk [MessagePart.plain "Lit"]

/-- A sub-message that references the matched number: "got #". -/
def msgHash : Message := Message.mk [MessagePart.plain "got ", MessagePart.placeholder]

/-- The plural format of `tests::it_works` (plural_format.rs lines
124-141): `PluralFormat::new("count", "Other")` with `one("One")`. -/
def countFmt : PluralFormat :=
  PluralFormat.set_one (PluralFormat.new "count" msgOther) msgOne

/-- `countFmt` with a literal override registered for 1. -/
def countLitFmt : PluralFormat := PluralFormat.literal countFmt 1 msgLit

/-- A plural format over "n" with offset 2 whose fallback message shows
the matched number. -/
def offFmt : PluralFormat :=
  PluralFormat.set_offset (PluralFormat.new "n" msgHash) 2

/-- The select format of `tests::it_works` (select_format.rs lines
62-82): `SelectFormat::new("type", "Default")` with `map("block", "Block")`. -/
def typeFmt : SelectFormat :=
  SelectFormat.map (SelectFormat.new "type" msgDefault) "block" msgBlock

/-- `arg("count", n)`: a one-entry argument list. -/
def countArgs (n : Int) : Args := [Arg.mk "count" (Value.Number n)]

/-- `arg("n", v)`: a one-entry argument list. -/
def nArgs (v : Int) : Args := [Arg.mk "n" (Value.Number v)]

/-- `arg("type", s)`: a one-entry argument list. -/
def typeArgs (s : String) : Args := [Arg.mk "type" (Value.Str s)]

/-! Shared step lemmas about one rendering step of each format part. -/

/-- The plural arm of `apply_format` on a `Number` argument: render the
looked-up message under the derived context. -/
theorem plural_step_number
    (R : Message → Context → String → Option Args → Option (String × Bool))
    (f : PluralFormat) (ctx : Context) (out : String) (args : Option Args)
    (a : Arg) (v : Int)
    (h1 : Option.bind args (fun x => Args.get x f.variable_name) = some a)
    (h2 : a.value = Value.Number v) :
    applyFormatStep R (MessagePart.plural f) ctx out args =
      R (f.lookup_message (v - f.offset))
        { ctx with placeholder_value := some (v - f.offset) } out args := by
  have e : Option.map Arg.value
      (Option.bind args (fun x => Args.get x f.variable_name)) =
      some (Value.Number v) := by
    rw [h1, ← h2]
    rfl
  simp only [applyFormatStep, e]

/-- The plural arm of `apply_format` on a missing or non-`Number`
argument: error, sink unchanged. -/
theorem plural_step_error
    (R : Message → Context → String → Option Args → Option (String × Bool))
    (f : PluralFormat) (ctx : Context) (out : String) (args : Option Args)
    (h : Option.bind args (fun x => Args.get x f.variable_name) = none ∨
      ∃ a s, Option.bind args (fun x => Args.get x f.variable_name) = some a ∧
        a.value = Value.Str s) :
    applyFormatStep R (MessagePart.plural f) ctx out args = some (out, false) := by
  rcases h with h | ⟨a, s, h1, h2⟩
  · have e : Option.map Arg.value
        (Option.bind args (fun x => Args.get x f.variable_name)) = none := by
      rw [h]; rfl
    simp only [applyFormatStep, e]
  · have e : Option.map Arg.value
        (Option.bind args (fun x => Args.get x f.variable_name)) =
        some (Value.Str s) := by
      rw [h1, ← h2]
      rfl
    simp only [applyFormatStep, e]

/-- The select arm of `apply_format` on a `Str` argument: render the
looked-up message under the unchanged context. -/
theorem select_step_str
    (R : Message → Context → String → Option Args → Option (String × Bool))
    (g : SelectFormat) (ctx : Context) (out : String) (args : Option Args)
    (a : Arg) (s : String)
    (h1 : Option.bind args (fun x => Args.get x g.variable_name) = some a)
    (h2 : a.value = Value.Str s) :
    applyFormatStep R (MessagePart.select g) ctx out args =
      R (g.lookup_message s) ctx out args := by
  have e : Option.map Arg.value
      (Option.bind args (fun x => Args.get x g.variable_name)) =
      some (Value.Str s) := by
    rw [h1, ← h2]
    rfl
  simp only [applyFormatStep, e]

/-- The select arm of `apply_format` on a missing or non-`Str` argument:
error, sink unchanged. -/
theorem select_step_error
    (R : Message → Context → String → Option Args → Option (String × Bool))
    (g : SelectFormat) (ctx : Context) (out : String) (args : Option Args)
    (h : Option.bind args (fun x => Args.get x g.variable_name) = none ∨
      ∃ a v, Option.bind args (fun x => Args.get x g.variable_name) = some a ∧
        a.value = Value.Number v) :
    applyFormatStep R (MessagePart.select g) ctx out args = some (out, false) := by
  rcases h with h | ⟨a, v, h1, h2⟩
  · have e : Option.map Arg.value
        (Option.bind args (fun x => Args.get x g.variable_name)) = none := by
      rw [h]; rfl
    simp only [applyFormatStep, e]
  · have e : Option.map Arg.value
        (Option.bind args (fun x => Args.get x g.variable_name)) =
        some (Value.Number v) := by
      rw [h1, ← h2]
      rfl
    simp only [applyFormatStep, e]

/-- `lookup_message` when a literal override is registered for the
offset-adjusted value: the literal's message. -/
theorem lookup_message_literal (f : PluralFormat) (v : Int) (m : Message)
    (h : lookupLiteral v f.literals = some m) : f.lookup_message v = m := by
  unfold PluralFormat.lookup_message
  rw [h]

/-- `lookup_message` when no literal override is registered: the
classifier's category picks the sub-message, falling back to `other`. -/
theorem lookup_message_category (f : PluralFormat) (v : Int)
    (h : lookupLiteral v f.literals = none) :
    f.lookup_message v =
      (match f.classifier v with
        | PluralCategory.Zero => Option.getD f.zero f.other
        | PluralCategory.One => Option.getD f.one f.other
        | PluralCategory.Two => Option.getD f.two f.other
        | PluralCategory.Few => Option.getD f.few f.other
        | PluralCategory.Many => Option.getD f.many f.other
        | PluralCategory.Other => f.other) := by
  unfold PluralFormat.lookup_message
  rw [h]

/-- `SelectFormat.lookup_message` on a mapped key. -/
theorem select_lookup_found (g : SelectFormat) (s : String) (m : Message)
    (h : lookupMapping s g.mappings = some m) : g.lookup_message s = m := by
  unfold SelectFormat.lookup_message
  rw [h]
  rfl

/-- `SelectFormat.lookup_message` on an unmapped key. -/
theorem select_lookup_default (g : SelectFormat) (s : String)
    (h : lookupMapping s g.mappings = none) : g.lookup_message s = g.default := by
  unfold SelectFormat.lookup_message
  rw [h]
  rfl


/-- Claim C1: for every integer argument v and every PluralFormat with
offset o, a literal override registered for n = v - o wins: lookup_message
on the adjusted value selects that literal's sub-message regardless of the
classifier, the check keying on the offset-adjusted value, and rendering
with argument v renders exactly that literal's message. -/
theorem plural_literal_override_wins (f : PluralFormat) (v : Int) (m : Message)
    (h : lookupLiteral (v - f.offset) f.literals = some m) :
    f.lookup_message (v - f.offset) = m ∧
    ∀ (fuel : Nat) (ctx : Context) (out : String) (args : Option Args) (a : Arg),
      Option.bind args (fun x => Args.get x f.variable_name) = some a →
      a.value = Value.Number v →
      MessagePart.apply_format fuel (MessagePart.plural f) ctx out args =
        Message.write_message fuel m
          { ctx with placeholder_value := some (v - f.offset) } out args := by
  have hl : f.lookup_message (v - f.offset) = m := lookup_message_literal f _ m h
  refine ⟨hl, ?_⟩
  intro fuel ctx out args a h1 h2
  have hs := plural_step_number (Message.write_message fuel) f ctx out args a v h1 h2
  show applyFormatStep (Message.write_message fuel) (MessagePart.plural f) ctx out args = _
  rw [hs, hl]

/-- Witness for C1: `countLitFmt` has classifier category One at 1 (which
would select "One"), yet the literal override registered for 1 wins. -/
theorem plural_literal_override_wins_witness :
    countLitFmt.lookup_message (1 - countLitFmt.offset) = msgLit ∧
    MessagePart.apply_format 1 (MessagePart.plural countLitFmt) {} ""
      (some (countArgs 1)) = some ("Lit", true) := by
  have t := plural_literal_override_wins countLitFmt 1 msgLit rfl
  refine ⟨t.1, ?_⟩
  rw [t.2 1 {} "" (some (countArgs 1)) (Arg.mk "count" (Value.Number 1)) rfl rfl]
  rfl

/-- Claim C2 counterexample: with the variable "type" absent from Args,
`SelectFormat::apply_format` returns an error with nothing written; it
does not render the default sub-message (which would have produced
"Default"). -/
theorem select_missing_variable_counterexample :
    MessagePart.apply_format 1 (MessagePart.select typeFmt) {} "" (some []) =
      some ("", false) ∧
    Message.write_message 1 typeFmt.default {} "" (some []) =
      some ("Default", true) ∧
    MessagePart.apply_format 1 (MessagePart.select typeFmt) {} "" (some []) ≠
      Message.write_message 1 typeFmt.default {} "" (some []) := by
  refine ⟨rfl, rfl, ?_⟩
  decide

/-- Claim C2 (amended): when the named variable is not found in Args (or
args is None), `SelectFormat::apply_format` returns a rendering error
with the sink unchanged; only an unmapped key that is present as a `Str`
value falls back to `default`. -/
theorem select_missing_variable_errors (fuel : Nat) (g : SelectFormat)
    (ctx : Context) (out : String) (args : Option Args)
    (h : Option.bind args (fun x => Args.get x g.variable_name) = none) :
    MessagePart.apply_format fuel (MessagePart.select g) ctx out args =
      some (out, false) :=
  select_step_error (Message.write_message fuel) g ctx out args (Or.inl h)

/-- Witness for the amended C2. -/
theorem select_missing_variable_errors_witness :
    MessagePart.apply_format 1 (MessagePart.select typeFmt) {} "" (some []) =
      some ("", false) :=
  select_missing_variable_errors 1 typeFmt {} "" (some []) rfl

/-- Claim C3: rendering a PluralFormat whose named argument is absent
from Args (or whose args is None), or present but not a Number value,
returns a rendering error and never coerces the value. -/
theorem plural_requires_number (fuel : Nat) (f : PluralFormat) (ctx : Context)
    (out : String) (args : Option Args)
    (h : Option.bind args (fun x => Args.get x f.variable_name) = none ∨
      ∃ a s, Option.bind args (fun x => Args.get x f.variable_name) = some a ∧
        a.value = Value.Str s) :
    MessagePart.apply_format fuel (MessagePart.plural f) ctx out args =
      some (out, false) :=
  plural_step_error (Message.write_message fuel) f ctx out args h

/-- Witness for C3: args None, variable absent, and variable holding a
string all make plural rendering fail. -/
theorem plural_requires_number_witness :
    MessagePart.apply_format 1 (MessagePart.plural countFmt) {} "" none =
      some ("", false) ∧
    MessagePart.apply_format 1 (MessagePart.plural countFmt) {} ""
      (some (typeArgs "x")) = some ("", false) ∧
    MessagePart.apply_format 1 (MessagePart.plural countFmt) {} ""
      (some [Arg.mk "count" (Value.Str "x")]) = some ("", false) :=
  ⟨plural_requires_number 1 countFmt {} "" none (Or.inl rfl),
   plural_requires_number 1 countFmt {} "" (some (typeArgs "x")) (Or.inl rfl),
   plural_requires_number 1 countFmt {} "" (some [Arg.mk "count" (Value.Str "x")])
     (Or.inr ⟨Arg.mk "count" (Value.Str "x"), "x", rfl, rfl⟩)⟩

/-- Claim C4: with no literal override for the adjusted value w, the
selected sub-message is the configured message of the classifier's
category when set, else `other`; with all five optional categories unset,
every such w selects `other`. -/
theorem plural_category_fallback (f : PluralFormat) (w : Int)
    (h : lookupLiteral w f.literals = none) :
    f.lookup_message w =
      (match f.classifier w with
        | PluralCategory.Zero => Option.getD f.zero f.other
        | PluralCategory.One => Option.getD f.one f.other
        | PluralCategory.Two => Option.getD f.two f.other
        | PluralCategory.Few => Option.getD f.few f.other
        | PluralCategory.Many => Option.getD f.many f.other
        | PluralCategory.Other => f.other) ∧
    (f.zero = none → f.one = none → f.two = none → f.few = none →
      f.many = none → f.lookup_message w = f.other) := by
  have h1 := lookup_message_category f w h
  refine ⟨h1, ?_⟩
  intro hz ho ht hf2 hm
  rw [h1]
  cases f.classifier w <;> simp [hz, ho, ht, hf2, hm]

/-- Witness for C4: `countFmt` at 1 selects the configured One message;
a format with every optional category unset selects `other` at 5. -/
theorem plural_category_fallback_witness :
    countFmt.lookup_message 1 = msgOne ∧
    (PluralFormat.new "count" msgOther).lookup_message 5 =
      (PluralFormat.new "count" msgOther).other := by
  have t1 := plural_category_fallback countFmt 1 rfl
  have t2 := plural_category_fallback (PluralFormat.new "count" msgOther) 5 rfl
  refine ⟨?_, t2.2 rfl rfl rfl rfl rfl⟩
  rw [t1.1]
  rfl

/-- Claim C5: `SelectFormat::lookup_message` returns the sub-message
registered via map(s, m) when looked up at s, the registered message for
any mapped key, and the default for every unmapped key (including the
empty string and near-miss strings, which are simply unmapped keys). -/
theorem select_lookup_exact (f : SelectFormat) (s k : String) (m : Message) :
    SelectFormat.lookup_message (SelectFormat.map f s m) s = m ∧
    (lookupMapping k f.mappings = some m → f.lookup_message k = m) ∧
    (lookupMapping k f.mappings = none → f.lookup_message k = f.default) := by
  refine ⟨?_, fun h => select_lookup_found f k m h,
    fun h => select_lookup_default f k h⟩
  cases f with
  | mk n maps d =>
      simp [SelectFormat.map, SelectFormat.lookup_message, SelectFormat.mappings,
        SelectFormat.default, lookupMapping]

/-- Witness for C5: a freshly mapped key is found; "block" finds its
mapping; "span" and "" fall back to the default. -/
theorem select_lookup_exact_witness :
    SelectFormat.lookup_message (SelectFormat.map typeFmt "green" msgOne) "green" =
      msgOne ∧
    typeFmt.lookup_message "block" = msgBlock ∧
    typeFmt.lookup_message "span" = typeFmt.default ∧
    typeFmt.lookup_message "" = typeFmt.default :=
  ⟨(select_lookup_exact typeFmt "green" "g" msgOne).1,
   (select_lookup_exact typeFmt "g" "block" msgBlock).2.1 rfl,
   (select_lookup_exact typeFmt "g" "span" msgOne).2.2 rfl,
   (select_lookup_exact typeFmt "g" "" msgOne).2.2 rfl⟩

/-- Claim C6: message selection is total — for every PluralFormat and
integer, lookup_message returns one of the format's configured
sub-messages (a registered literal, a category message, or `other`), and
for every SelectFormat and string, lookup_message returns a mapped
message or the default; no lookup path errors. -/
theorem selection_total (f : PluralFormat) (g : SelectFormat) (v : Int)
    (s : String) :
    ((∃ m, lookupLiteral v f.literals = some m ∧ f.lookup_message v = m) ∨
      f.lookup_message v = Option.getD f.zero f.other ∨
      f.lookup_message v = Option.getD f.one f.other ∨
      f.lookup_message v = Option.getD f.two f.other ∨
      f.lookup_message v = Option.getD f.few f.other ∨
      f.lookup_message v = Option.getD f.many f.other ∨
      f.lookup_message v = f.other) ∧
    ((∃ m, lookupMapping s g.mappings = some m ∧ g.lookup_message s = m) ∨
      g.lookup_message s = g.default) := by
  constructor
  · cases e : lookupLiteral v f.literals with
    | some m => exact Or.inl ⟨m, rfl, lookup_message_literal f v m e⟩
    | none =>
        have hc := lookup_message_category f v e
        cases e2 : f.classifier v with
        | Zero => exact Or.inr (Or.inl (by rw [hc, e2]))
        | One => exact Or.inr (Or.inr (Or.inl (by rw [hc, e2])))
        | Two => exact Or.inr (Or.inr (Or.inr (Or.inl (by rw [hc, e2]))))
        | Few => exact Or.inr (Or.inr (Or.inr (Or.inr (Or.inl (by rw [hc, e2])))))
        | Many =>
            exact Or.inr (Or.inr (Or.inr (Or.inr (Or.inr (Or.inl (by rw [hc, e2]))))))
        | Other =>
            exact Or.inr (Or.inr (Or.inr (Or.inr (Or.inr (Or.inr (by rw [hc, e2]))))))
  · cases e : lookupMapping s g.mappings with
    | some m => exact Or.inl ⟨m, rfl, select_lookup_found g s m e⟩
    | none => exact Or.inr (select_lookup_default g s e)

/-- Claim C7: when plural rendering succeeds on numeric argument v, the
chosen sub-message is rendered with a derived Context whose placeholder
value is v - offset (the incoming Context otherwise unchanged and itself
untouched) and with the same Args, so nested placeholder references see
the adjusted value. -/
theorem plural_derived_context (fuel : Nat) (f : PluralFormat) (ctx : Context)
    (out : String) (args : Option Args) (a : Arg) (v : Int)
    (h1 : Option.bind args (fun x => Args.get x f.variable_name) = some a)
    (h2 : a.value = Value.Number v) :
    MessagePart.apply_format fuel (MessagePart.plural f) ctx out args =
      Message.write_message fuel (f.lookup_message (v - f.offset))
        { ctx with placeholder_value := some (v - f.offset) } out args :=
  plural_step_number (Message.write_message fuel) f ctx out args a v h1 h2

/-- Witness for C7: `offFmt` (offset 2, fallback message "got #") with
n = 7 renders its sub-message under placeholder value 5, and the rendered
text shows the adjusted 5, not the raw 7. -/
theorem plural_derived_context_witness :
    MessagePart.apply_format 1 (MessagePart.plural offFmt) {} "" (some (nArgs 7)) =
      Message.write_message 1 (offFmt.lookup_message (7 - offFmt.offset))
        { placeholder_value := some (7 - offFmt.offset) } "" (some (nArgs 7)) ∧
    MessagePart.apply_format 1 (MessagePart.plural offFmt) {} "" (some (nArgs 7)) =
      some ("got 5", true) :=
  ⟨plural_derived_context 1 offFmt {} "" (some (nArgs 7))
    (Arg.mk "n" (Value.Number 7)) 7 rfl rfl, rfl⟩

/-- Claim C8: select rendering passes the Context through unchanged — the
selected sub-message is rendered with exactly the Context apply_format
received, its placeholder value untouched. -/
theorem select_same_context (fuel : Nat) (g : SelectFormat) (ctx : Context)
    (out : String) (args : Option Args) (a : Arg) (s : String)
    (h1 : Option.bind args (fun x => Args.get x g.variable_name) = some a)
    (h2 : a.value = Value.Str s) :
    MessagePart.apply_format fuel (MessagePart.select g) ctx out args =
      Message.write_message fuel (g.lookup_message s) ctx out args :=
  select_step_str (Message.write_message fuel) g ctx out args a s h1 h2

/-- Witness for C8: with a placeholder value 9 already in the Context,
select rendering forwards that same Context to the sub-message. -/
theorem select_same_context_witness :
    MessagePart.apply_format 1 (MessagePart.select typeFmt) (Context.mk (some 9))
      "" (some (typeArgs "block")) =
      Message.write_message 1 (typeFmt.lookup_message "block")
        (Context.mk (some 9)) "" (some (typeArgs "block")) :=
  select_same_context 1 typeFmt (Context.mk (some 9)) "" (some (typeArgs "block"))
    (Arg.mk "type" (Value.Str "block")) "block" rfl rfl

/-- Claim C9: `PluralFormat::new("count", "Other")` with `one("One")`,
under the default english cardinal classifier, renders "Other" for
count = 0, "One" for count = 1, and "Other" for count = 3. -/
theorem plural_concrete_scenario :
    MessagePart.apply_format 1 (MessagePart.plural countFmt) {} ""
      (some (countArgs 0)) = some ("Other", true) ∧
    MessagePart.apply_format 1 (MessagePart.plural countFmt) {} ""
      (some (countArgs 1)) = some ("One", true) ∧
    MessagePart.apply_format 1 (MessagePart.plural countFmt) {} ""
      (some (countArgs 3)) = some ("Other", true) :=
  ⟨rfl, rfl, rfl⟩

/-- Claim C10: error atomicity — whenever plural or select rendering
errors because args is None, the named variable is absent, or the
variable holds the wrong Value variant, the error is returned with the
output sink's content unchanged. -/
theorem apply_format_error_atomic (fuel : Nat) (f : PluralFormat)
    (g : SelectFormat) (ctx : Context) (out : String) (args : Option Args)
    (hf : Option.bind args (fun x => Args.get x f.variable_name) = none ∨
      ∃ a s, Option.bind args (fun x => Args.get x f.variable_name) = some a ∧
        a.value = Value.Str s)
    (hg : Option.bind args (fun x => Args.get x g.variable_name) = none ∨
      ∃ a v, Option.bind args (fun x => Args.get x g.variable_name) = some a ∧
        a.value = Value.Number v) :
    MessagePart.apply_format fuel (MessagePart.plural f) ctx out args =
      some (out, false) ∧
    MessagePart.apply_format fuel (MessagePart.select g) ctx out args =
      some (out, false) :=
  ⟨plural_step_error (Message.write_message fuel) f ctx out args hf,
   select_step_error (Message.write_message fuel) g ctx out args hg⟩

/-- Witness for C10: with args None and a non-empty sink "abc", both
formats fail and leave the sink at "abc". -/
theorem apply_format_error_atomic_witness :
    MessagePart.apply_format 1 (MessagePart.plural countFmt) {} "abc" none =
      some ("abc", false) ∧
    MessagePart.apply_format 1 (MessagePart.select typeFmt) {} "abc" none =
      some ("abc", false) :=
  apply_format_error_atomic 1 countFmt typeFmt {} "abc" none (Or.inl rfl)
    (Or.inl rfl)

end MF
